import Mathlib

/-!
Shallow embedding of the realtime voice bridge in src/app.py.

The bridge relays audio between a Twilio media-stream websocket and an
OpenAI realtime websocket, and answers the single declared tool call
(get_additional_context) by querying Azure Cognitive Search.

Modelling conventions:
  * JSON field access `d["k"]` on a possibly-missing key is modelled by an
    `Option` field; `none` means the key is absent, so direct subscript
    access raises (modelled as `Except.error ()`), while `.get` access with
    a default does not.
  * The Azure Search backend (the library call `search_client.search`
    together with the iteration over its results) is modelled as a function
    from the query to `Except Unit (List (Option String))`: `.error` means
    the call raised, `.ok docs` is the returned document list, each
    document exposing an optional `chunk` field.
  * One outgoing websocket send is modelled as one element of a list of
    tagged messages, in send order.
-/

/-- One outgoing message on the OpenAI websocket.
`audioAppend a` is `{"type": "input_audio_buffer.append", "audio": a}`;
`itemCreateFnOutput cid out` is the `conversation.item.create` message whose
item has type `function_call_output`, call id `cid` and output `out`;
`responseCreate` is `{"type": "response.create"}`. -/
inductive AISend where
  | audioAppend (audio : String)
  | itemCreateFnOutput (call_id : String) (output : String)
  | responseCreate
deriving DecidableEq

/-- One outgoing message on the Twilio websocket: the `media` event envelope
`{"event": "media", "streamSid": streamSid, "media": {"payload": payload}}`.
The code inserts the current `stream_sid` variable, which may still be
`None`, hence `Option String`. -/
structure TwilioSend where
  streamSid : Option String
  payload : String
deriving DecidableEq

/-- A decoded message from the OpenAI websocket, with exactly the fields the
loop body of `send_to_twilio` reads.  `arguments` is the result of
`json.loads(response["arguments"])` modelled as an association list of the
parsed JSON object; `none` means the field is absent (subscript access would
raise).  `text` backs `response.get("text", "")` in the committed branch. -/
structure OpenAIEvent where
  type : Option String
  delta : Option String
  name : Option String
  arguments : Option (List (String × String))
  call_id : Option String
  text : Option String
deriving DecidableEq

/-- A decoded message from the Twilio websocket, with exactly the fields the
loop body of `receive_from_twilio` reads: `event` backs `data["event"]`,
`mediaPayload` backs the chain `data["media"]["payload"]`, and
`startStreamSid` backs `data["start"]["streamSid"]`; `none` anywhere means a
key on that path is absent and subscript access raises. -/
structure TwilioInMsg where
  event : Option String
  mediaPayload : Option String
  startStreamSid : Option String
deriving DecidableEq

/-- The Azure Search backend as seen by `azure_search_rag`: for a query it
either raises (`.error`) or returns the (already iterated) document list,
each document with an optional `chunk` field. -/
abbrev Backend := String → Except Unit (List (Option String))

/-- Embedding of `azure_search_rag` (src/app.py lines 194-210): query the
backend; on success map each document to its `chunk` field with default
"No content available", return the newline join, or the fixed placeholder
when the list is empty; on any raised exception return the fixed error
placeholder.  Total: it never propagates a failure. -/
def azure_search_rag (search : Backend) (query : String) : String :=
  match search query with
  | .error _ => "Error retrieving data from Azure Search."
  | .ok docs =>
    let summarized_results := docs.map (fun doc => doc.getD "No content available")
    if summarized_results.isEmpty then "No relevant information found in Azure Search."
    else String.intercalate "\n" summarized_results

/-- Embedding of `send_function_output` (src/app.py lines 178-191): two
sends on the OpenAI websocket, the function_call_output item first, then the
bare response.create. -/
def send_function_output (call_id : String) (output : String) : List AISend :=
  [.itemCreateFnOutput call_id output, .responseCreate]

/-- The standard base64 alphabet, index 0 to 63. -/
def b64chars : List Char :=
  ['A','B','C','D','E','F','G','H','I','J','K','L','M',
   'N','O','P','Q','R','S','T','U','V','W','X','Y','Z',
   'a','b','c','d','e','f','g','h','i','j','k','l','m',
   'n','o','p','q','r','s','t','u','v','w','x','y','z',
   '0','1','2','3','4','5','6','7','8','9','+','/']

/-- The alphabet character for a sextet value. -/
def b64charAt (i : Nat) : Char := b64chars.getD i 'A'

/-- The sextet value of an alphabet character, `none` for a character
outside the alphabet. -/
def b64index (c : Char) : Option Nat := b64chars.findIdx? (fun x => x = c)

/-- Embedding of Python `base64.b64encode` on a byte list (bytes as `Nat`
below 256): groups of three bytes become four alphabet characters, a final
group of one or two bytes is padded with `=`. -/
def b64encodeBytes : List Nat → List Char
  | [] => []
  | [b1] => [b64charAt (b1 / 4), b64charAt (b1 % 4 * 16), '=', '=']
  | [b1, b2] =>
    [b64charAt (b1 / 4), b64charAt (b1 % 4 * 16 + b2 / 16), b64charAt (b2 % 16 * 4), '=']
  | b1 :: b2 :: b3 :: rest =>
    b64charAt (b1 / 4) :: b64charAt (b1 % 4 * 16 + b2 / 16) ::
      b64charAt (b2 % 16 * 4 + b3 / 64) :: b64charAt (b3 % 64) :: b64encodeBytes rest

/-- `base64.b64encode(...).decode("utf-8")` as a `String`. -/
def b64encode (bs : List Nat) : String := String.mk (b64encodeBytes bs)

/-- Embedding of Python `base64.b64decode` (default non-strict mode) on
four-character quanta: a full quantum yields three bytes; a quantum ending
in `=` or `==` must be last and yields two bytes or one byte, silently
dropping the surplus bits of the final sextet (non-strict mode does not
check them); anything else - a character outside the alphabet, or a length
that is not a multiple of four - raises (`.error`).  Python additionally
discards characters outside the alphabet before decoding; the deltas this
bridge handles contain none, so that case is folded into `.error` here. -/
def b64decodeChars : List Char → Except Unit (List Nat)
  | [] => .ok []
  | c1 :: c2 :: c3 :: c4 :: rest =>
    if c3 = '=' ∧ c4 = '=' then
      if rest.isEmpty then
        match b64index c1, b64index c2 with
        | some i1, some i2 => .ok [i1 * 4 + i2 / 16]
        | _, _ => .error ()
      else .error ()
    else if c4 = '=' then
      if rest.isEmpty then
        match b64index c1, b64index c2, b64index c3 with
        | some i1, some i2, some i3 => .ok [i1 * 4 + i2 / 16, i2 % 16 * 16 + i3 / 4]
        | _, _, _ => .error ()
      else .error ()
    else
      match b64index c1, b64index c2, b64index c3, b64index c4, b64decodeChars rest with
      | some i1, some i2, some i3, some i4, .ok tail =>
        .ok ((i1 * 4 + i2 / 16) :: (i2 % 16 * 16 + i3 / 4) :: (i3 % 4 * 64 + i4) :: tail)
      | _, _, _, _, _ => .error ()
  | _ => .error ()

/-- `base64.b64decode` on a `String`. -/
def b64decode (s : String) : Except Unit (List Nat) := b64decodeChars s.toList

/-- `json.loads(response["arguments"]).get("query", "")`: look up the query
key in the parsed argument object, defaulting to the empty string. -/
def get_query (args : List (String × String)) : String := (args.lookup "query").getD ""

/-- Embedding of one iteration of the loop body of `send_to_twilio`
(src/app.py lines 96-129) on one decoded OpenAI message.  Returns the
Twilio sends and the OpenAI sends this message provokes, in send order;
`.error ()` means an uncaught exception escaped the body (the enclosing
`except Exception` then ends the loop).  The three source branches in
order: the audio delta branch re-encodes the decoded delta and sends a
media event; the function-call branch answers `get_additional_context` via
`azure_search_rag` and `send_function_output`; the committed branch reads
`text` and does nothing (its action is commented out in the source). -/
def send_to_twilio_step (search : Backend) (stream_sid : Option String)
    (response : OpenAIEvent) : Except Unit (List TwilioSend × List AISend) := do
  let twilioSends ←
    if response.type = some "response.audio.delta" ∧ response.delta.isSome then
      match response.delta with
      | some d => do
        let bytes ← b64decode d
        pure [TwilioSend.mk stream_sid (b64encode bytes)]
      | none => pure []
    else pure []
  let aiSends ←
    if response.type = some "response.function_call_arguments.done" then
      match response.name with
      | none => .error ()
      | some function_name =>
        if function_name = "get_additional_context" then
          match response.arguments with
          | none => .error ()
          | some args =>
            let search_results := azure_search_rag search (get_query args)
            match response.call_id with
            | none => .error ()
            | some cid => pure (send_function_output cid search_results)
        else pure []
    else pure []
  pure (twilioSends, aiSends)

/-- Embedding of one iteration of the loop body of `receive_from_twilio`
(src/app.py lines 78-88) on one decoded Twilio message: a `media` event
sends an input_audio_buffer.append with the payload unchanged; a `start`
event overwrites the stored `stream_sid`; any other recognized event value
is ignored; a missing key raises (`.error ()`). -/
def receive_step (stream_sid : Option String) (data : TwilioInMsg) :
    Except Unit (Option String × List AISend) :=
  match data.event with
  | none => .error ()
  | some e =>
    if e = "media" then
      match data.mediaPayload with
      | none => .error ()
      | some payload => .ok (stream_sid, [.audioAppend payload])
    else if e = "start" then
      match data.startStreamSid with
      | none => .error ()
      | some s => .ok (some s, [])
    else .ok (stream_sid, [])

/-- Outcome of running the inbound loop of `receive_from_twilio` to its
end.  `stream_sid` is the final value of the shared variable; `sends` the
OpenAI sends in order; `exn` is true when an uncaught exception escaped
(only `WebSocketDisconnect` is caught); `aiOpenAfter` is whether the
handler leaves the OpenAI websocket open (on the disconnect path it closes
it when open; on the exception path it does not touch it - the enclosing
context manager closes it later, outside this function). -/
structure RecvOutcome where
  stream_sid : Option String
  sends : List AISend
  exn : Bool
  aiOpenAfter : Bool
deriving DecidableEq

/-- Embedding of `receive_from_twilio` (src/app.py lines 75-92) over the
whole inbound stream: a list of messages (`none` marks a frame that is not
valid JSON, so `json.loads` raises) followed by the disconnect that ends
`iter_text` and raises `WebSocketDisconnect`, which the handler catches,
closing the OpenAI websocket when still open.  `openai_open` is whether the
OpenAI websocket is open when the loop ends. -/
def receive_from_twilio (openai_open : Bool) :
    Option String → List (Option TwilioInMsg) → RecvOutcome
  | sid, [] => ⟨sid, [], false, false⟩
  | sid, none :: _ => ⟨sid, [], true, openai_open⟩
  | sid, some data :: rest =>
    match receive_step sid data with
    | .error _ => ⟨sid, [], true, openai_open⟩
    | .ok (sid2, out) =>
      let r := receive_from_twilio openai_open sid2 rest
      ⟨r.stream_sid, out ++ r.sends, r.exn, r.aiOpenAfter⟩

/-- Is this inbound frame a well-formed `media` or `start` event (the shapes
scenario sequences of the spec are made of)? -/
def wfInbound (x : Option TwilioInMsg) : Bool :=
  match x with
  | none => false
  | some m =>
    (m.event = some "media" && m.mediaPayload.isSome) ||
      (m.event = some "start" && m.startStreamSid.isSome)

/-- Is this inbound frame a `start` event? -/
def isStartEvent (x : Option TwilioInMsg) : Bool :=
  match x with
  | some m => m.event = some "start"
  | none => false

/-- Number of `start` events in an inbound stream. -/
def countStarts (msgs : List (Option TwilioInMsg)) : Nat :=
  msgs.countP isStartEvent

/-- The audio appends that a sequence of inbound frames should produce: one
input_audio_buffer.append per `media` event, carrying its payload. -/
def mediaAppends : List (Option TwilioInMsg) → List AISend
  | [] => []
  | none :: rest => mediaAppends rest
  | some m :: rest =>
    if m.event = some "media" then
      match m.mediaPayload with
      | some p => AISend.audioAppend p :: mediaAppends rest
      | none => mediaAppends rest
    else mediaAppends rest

theorem b64index_charAt : ∀ i, i < 64 → b64index (b64charAt i) = some i := by decide

/-- No alphabet character is the padding character. -/
theorem b64charAt_ne_pad : ∀ i, i < 64 → b64charAt i ≠ '=' := by decide

/-- Decoding a canonical base64 encoding of a byte list recovers the bytes. -/
theorem b64decode_b64encode : ∀ (bytes : List Nat), (∀ b ∈ bytes, b < 256) →
    b64decodeChars (b64encodeBytes bytes) = .ok bytes
  | [], _ => rfl
  | [b1], h => by
    have hb1 : b1 < 256 := h b1 (by simp)
    simp only [b64encodeBytes, b64decodeChars, List.isEmpty_nil, if_true,
      b64index_charAt (b1 / 4) (by omega), b64index_charAt (b1 % 4 * 16) (by omega)]
    simp only [and_self, if_true, Except.ok.injEq, List.cons.injEq, and_true]
    omega
  | [b1, b2], h => by
    have hb1 : b1 < 256 := h b1 (by simp)
    have hb2 : b2 < 256 := h b2 (by simp)
    simp only [b64encodeBytes, b64decodeChars]
    rw [if_neg (by rintro ⟨h1, _⟩; exact b64charAt_ne_pad (b2 % 16 * 4) (by omega) h1)]
    simp only [if_true, List.isEmpty_nil, b64index_charAt (b1 / 4) (by omega),
      b64index_charAt (b1 % 4 * 16 + b2 / 16) (by omega),
      b64index_charAt (b2 % 16 * 4) (by omega), Except.ok.injEq, List.cons.injEq, and_true]
    constructor <;> omega
  | b1 :: b2 :: b3 :: rest, h => by
    have hb1 : b1 < 256 := h b1 (by simp)
    have hb2 : b2 < 256 := h b2 (by simp)
    have hb3 : b3 < 256 := h b3 (by simp)
    have ih := b64decode_b64encode rest (fun b hb => h b (by simp [hb]))
    simp only [b64encodeBytes, b64decodeChars]
    rw [if_neg (by rintro ⟨h1, _⟩; exact b64charAt_ne_pad (b2 % 16 * 4 + b3 / 64) (by omega) h1)]
    rw [if_neg (b64charAt_ne_pad (b3 % 64) (by omega))]
    rw [b64index_charAt (b1 / 4) (by omega),
      b64index_charAt (b1 % 4 * 16 + b2 / 16) (by omega),
      b64index_charAt (b2 % 16 * 4 + b3 / 64) (by omega),
      b64index_charAt (b3 % 64) (by omega), ih]
    simp only [Except.ok.injEq, List.cons.injEq, and_true]
    refine ⟨by omega, by omega, by omega⟩

/-- On a completed tool call for `get_additional_context` with parsed
arguments and a call id, the step sends exactly the function output and the
response.create, whatever the backend does. -/
theorem toolcall_step_eq (search : Backend) (sid : Option String) (ev : OpenAIEvent)
    (args : List (String × String)) (cid : String)
    (ht : ev.type = some "response.function_call_arguments.done")
    (hn : ev.name = some "get_additional_context")
    (ha : ev.arguments = some args)
    (hc : ev.call_id = some cid) :
    send_to_twilio_step search sid ev =
      .ok ([], [AISend.itemCreateFnOutput cid (azure_search_rag search (get_query args)),
        AISend.responseCreate]) := by
  simp only [send_to_twilio_step, ht, hn, ha, hc, send_function_output]
  simp
  rfl

/-- A completed tool call for any other function name sends nothing. -/
theorem other_name_step_eq (search : Backend) (sid : Option String) (ev : OpenAIEvent) (n : String)
    (ht : ev.type = some "response.function_call_arguments.done")
    (hn : ev.name = some n)
    (hne : n ≠ "get_additional_context") :
    send_to_twilio_step search sid ev = .ok ([], []) := by
  simp only [send_to_twilio_step, ht, hn, hne]
  simp [hne]
  rfl

/-- An input_audio_buffer.committed message sends nothing on either side. -/
theorem committed_step_eq (search : Backend) (sid : Option String) (ev : OpenAIEvent)
    (ht : ev.type = some "input_audio_buffer.committed") :
    send_to_twilio_step search sid ev = .ok ([], []) := by
  simp only [send_to_twilio_step, ht]
  simp
  rfl

/-- An audio delta whose payload decodes sends exactly one media event
carrying the re-encoding of the decoded bytes. -/
theorem audio_delta_step_eq (search : Backend) (sid : Option String) (ev : OpenAIEvent)
    (d : String) (bytes : List Nat)
    (ht : ev.type = some "response.audio.delta")
    (hd : ev.delta = some d)
    (hdec : b64decode d = .ok bytes) :
    send_to_twilio_step search sid ev = .ok ([TwilioSend.mk sid (b64encode bytes)], []) := by
  simp only [send_to_twilio_step, ht, hd, hdec]
  simp

/-- The inbound loop forwards exactly the media payloads, in order, when
every frame is a well-formed media or start event. -/
theorem receive_passthrough (op : Bool) : ∀ (sid : Option String)
    (msgs : List (Option TwilioInMsg)), (∀ x ∈ msgs, wfInbound x = true) →
    (receive_from_twilio op sid msgs).sends = mediaAppends msgs
  | _, [], _ => rfl
  | sid, x :: rest, h => by
    have hx := h x (List.mem_cons_self x rest)
    have ih := fun s =>
      receive_passthrough op s rest (fun y hy => h y (List.mem_cons_of_mem x hy))
    cases x with
    | none => simp [wfInbound] at hx
    | some m =>
      simp only [wfInbound, Bool.or_eq_true, Bool.and_eq_true, decide_eq_true_eq,
        Option.isSome_iff_exists] at hx
      rcases hx with ⟨hm, p, hp⟩ | ⟨hm, s, hs⟩
      · have hstep : receive_step sid m = .ok (sid, [AISend.audioAppend p]) := by
          simp [receive_step, hm, hp]
        simp only [receive_from_twilio, hstep, mediaAppends, hm, hp]
        simp [ih sid]
      · have hstep : receive_step sid m = .ok (some s, []) := by
          simp [receive_step, hm, hs]
        simp only [receive_from_twilio, hstep, mediaAppends, hm]
        simp [ih (some s)]

/-- The stored stream identifier is unchanged by any inbound stream that
contains no start event. -/
theorem receive_sid_no_start (op : Bool) : ∀ (sid : Option String)
    (msgs : List (Option TwilioInMsg)), (∀ x ∈ msgs, isStartEvent x = false) →
    (receive_from_twilio op sid msgs).stream_sid = sid
  | _, [], _ => rfl
  | sid, x :: rest, h => by
    have hx := h x (List.mem_cons_self x rest)
    have ih := fun s =>
      receive_sid_no_start op s rest (fun y hy => h y (List.mem_cons_of_mem x hy))
    cases x with
    | none => rfl
    | some m =>
      simp only [isStartEvent, decide_eq_false_iff_not] at hx
      rcases he : m.event with _ | e
      · simp [receive_from_twilio, receive_step, he]
      · rw [he] at hx
        have hne : e ≠ "start" := by simpa using hx
        by_cases hm : e = "media"
        · rcases hp : m.mediaPayload with _ | p
          · simp [receive_from_twilio, receive_step, he, hm, hp]
          · simp [receive_from_twilio, receive_step, he, hm, hp, ih sid]
        · simp [receive_from_twilio, receive_step, he, hm, hne, ih sid]

/-- C1: for every tool-call-arguments-complete event received from the AI
transport (carrying the declared function name, a parsed argument payload
and a call id), the bridge sends exactly two messages on the AI transport:
one conversation.item.create with item type function_call_output and the
call id of the event, followed by one response.create, in that order; the
backend is universally quantified, so this covers the success and the
failure path of the retrieval call alike. -/
theorem toolcall_sends_exactly_two (search : Backend) (sid : Option String)
    (ev : OpenAIEvent) (args : List (String × String)) (cid : String)
    (ht : ev.type = some "response.function_call_arguments.done")
    (hn : ev.name = some "get_additional_context")
    (ha : ev.arguments = some args)
    (hc : ev.call_id = some cid) :
    send_to_twilio_step search sid ev =
      .ok ([], [AISend.itemCreateFnOutput cid (azure_search_rag search (get_query args)),
        AISend.responseCreate]) :=
  toolcall_step_eq search sid ev args cid ht hn ha hc

/-- C1 witness: a concrete tool call against a raising backend still sends
exactly the two messages. -/
theorem toolcall_sends_exactly_two_witness :
    send_to_twilio_step (fun _ => .error ()) (some "CA123")
      ⟨some "response.function_call_arguments.done", none, some "get_additional_context",
        some [("query", "plan details")], some "c1", none⟩ =
      .ok ([], [AISend.itemCreateFnOutput "c1"
        (azure_search_rag (fun _ => .error ()) (get_query [("query", "plan details")])),
        AISend.responseCreate]) :=
  toolcall_sends_exactly_two (fun _ => .error ()) (some "CA123") _ _ _ rfl rfl rfl rfl

/-- C2: azure_search_rag is total (a retrieval failure is never propagated
to the session) and returns the newline join of the chunk fields on a
non-empty document list, with a missing chunk contributing the fixed
placeholder; the fixed no-information literal on an empty list; and the
fixed error literal when the backend raises. -/
theorem azure_search_rag_cases (search : Backend) (query : String) :
    (∀ docs, search query = .ok docs → docs ≠ [] →
      azure_search_rag search query =
        String.intercalate "\n" (docs.map (fun doc => doc.getD "No content available"))) ∧
    (search query = .ok [] →
      azure_search_rag search query = "No relevant information found in Azure Search.") ∧
    (∀ e, search query = .error e →
      azure_search_rag search query = "Error retrieving data from Azure Search.") := by
  refine ⟨fun docs hok hne => ?_, fun hok => ?_, fun e herr => ?_⟩
  · simp only [azure_search_rag, hok]
    rw [if_neg (by simpa [List.isEmpty_iff] using hne)]
  · simp [azure_search_rag, hok]
  · simp [azure_search_rag, herr]

/-- C2 witness: a two-document list, one of them missing its chunk field,
yields the join with the placeholder in place of the missing chunk. -/
theorem azure_search_rag_cases_witness :
    azure_search_rag (fun _ => .ok [some "a", none]) "q" =
      String.intercalate "\n"
        ([some "a", none].map (fun doc => doc.getD "No content available")) :=
  (azure_search_rag_cases (fun _ => .ok [some "a", none]) "q").1 [some "a", none] rfl
    (by decide)

/-- C3 counterexample: the audio delta "QR==" (valid but non-canonical
base64: its surplus padding bits are non-zero) is forwarded as "QQ==", so
the decode/re-encode round trip is not the identity on every delta value
the code accepts. -/
theorem audio_delta_roundtrip_cex :
    send_to_twilio_step (fun _ => .ok []) (some "CA123")
      ⟨some "response.audio.delta", some "QR==", none, none, none, none⟩ =
      .ok ([TwilioSend.mk (some "CA123") "QQ=="], []) ∧ ("QQ==" : String) ≠ "QR==" :=
  ⟨rfl, by decide⟩

/-- C3 amended: for every response.audio.delta message whose delta is the
canonical base64 encoding of a byte sequence - which every delta actually
produced by the AI service is - the payload forwarded to the telephony
connection inside the media event equals the original delta unchanged. -/
theorem audio_delta_roundtrip_canonical (search : Backend) (sid : Option String)
    (bytes : List Nat) (h : ∀ b ∈ bytes, b < 256) :
    send_to_twilio_step search sid
      ⟨some "response.audio.delta", some (b64encode bytes), none, none, none, none⟩ =
      .ok ([TwilioSend.mk sid (b64encode bytes)], []) :=
  audio_delta_step_eq search sid _ (b64encode bytes) bytes rfl rfl
    (by simpa [b64decode, b64encode] using b64decode_b64encode bytes h)

/-- C3 witness: the delta encoding the bytes of "defg" (scenario B) is
forwarded unchanged. -/
theorem audio_delta_roundtrip_canonical_witness :
    send_to_twilio_step (fun _ => .ok []) (some "CA123")
      ⟨some "response.audio.delta", some (b64encode [100, 101, 102, 103]), none, none, none,
        none⟩ = .ok ([TwilioSend.mk (some "CA123") (b64encode [100, 101, 102, 103])], []) :=
  audio_delta_roundtrip_canonical (fun _ => .ok []) (some "CA123") [100, 101, 102, 103]
    (by decide)

/-- C4: for every inbound sequence of well-formed media events interleaved
with at most one start event, the payload of each media event is forwarded
to the AI transport unchanged, in order, as the audio field of an
input_audio_buffer.append message. -/
theorem media_passthrough (op : Bool) (sid : Option String)
    (msgs : List (Option TwilioInMsg))
    (hwf : ∀ x ∈ msgs, wfInbound x = true)
    (hstart : countStarts msgs ≤ 1) :
    (receive_from_twilio op sid msgs).sends = mediaAppends msgs :=
  receive_passthrough op sid msgs hwf

/-- C4 witness: scenario A, a start event followed by one media event with
payload "QUJD". -/
theorem media_passthrough_witness :
    (receive_from_twilio true none
      [some ⟨some "start", none, some "CA123"⟩,
        some ⟨some "media", some "QUJD", none⟩]).sends =
      mediaAppends [some ⟨some "start", none, some "CA123"⟩,
        some ⟨some "media", some "QUJD", none⟩] :=
  media_passthrough true none _ (by decide) (by decide)

/-- C5 counterexample: the stored stream identifier is not immutable once
observed - a second start event overwrites it unconditionally. -/
theorem stream_sid_second_start_cex :
    (receive_from_twilio true none
      [some ⟨some "start", none, some "CA123"⟩,
        some ⟨some "start", none, some "CA999"⟩]).stream_sid = some "CA999" ∧
      (some "CA999" : Option String) ≠ some "CA123" :=
  ⟨rfl, by decide⟩

/-- C5 amended: the stored stream identifier is changed only by start
events: over any inbound stream containing no start event it keeps its
current value; only a further start event can overwrite it. -/
theorem stream_sid_immutable_no_start (op : Bool) (sid : Option String)
    (msgs : List (Option TwilioInMsg)) (h : ∀ x ∈ msgs, isStartEvent x = false) :
    (receive_from_twilio op sid msgs).stream_sid = sid :=
  receive_sid_no_start op sid msgs h

/-- C5 witness: a media event and a stop event leave the identifier
observed earlier unchanged. -/
theorem stream_sid_immutable_no_start_witness :
    (receive_from_twilio true (some "CA123")
      [some ⟨some "media", some "QUJD", none⟩,
        some ⟨some "stop", none, none⟩]).stream_sid = some "CA123" :=
  stream_sid_immutable_no_start true (some "CA123") _ (by decide)

/-- C6 counterexample: a stop event does not end the inbound loop - a media
event arriving after it is still forwarded to the AI transport, so the
loop kept relaying past the terminal event. -/
theorem stop_does_not_end_loop_cex :
    (receive_from_twilio true none
      [some ⟨some "stop", none, none⟩,
        some ⟨some "media", some "QUJD", none⟩]).sends = [AISend.audioAppend "QUJD"] ∧
      ([AISend.audioAppend "QUJD"] : List AISend) ≠ [] :=
  ⟨rfl, by decide⟩

/-- C6 amended: when the telephony connection drops, the inbound loop ends,
the AI transport connection ends up closed (it is closed when still open),
and no outbound message is sent within the teardown; a terminal event such
as stop, by contrast, is ignored: it neither ends the loop nor changes any
state nor sends anything. -/
theorem disconnect_teardown (op : Bool) (sid : Option String) :
    receive_from_twilio op sid [] = ⟨sid, [], false, false⟩ ∧
    (∀ (m : TwilioInMsg) (e : String), m.event = some e → e ≠ "media" → e ≠ "start" →
      receive_step sid m = .ok (sid, [])) :=
  ⟨rfl, fun m e he h1 h2 => by simp [receive_step, he, h1, h2]⟩

/-- C6 witness: a stop event is ignored by the loop body. -/
theorem disconnect_teardown_witness :
    receive_step (some "CA123") ⟨some "stop", none, none⟩ = .ok (some "CA123", []) :=
  (disconnect_teardown true (some "CA123")).2 ⟨some "stop", none, none⟩ "stop" rfl
    (by decide) (by decide)

/-- C7: when the parsed tool-call argument payload lacks a query key, the
bridge treats the query as the empty string and still performs the
retrieval call and both sends, rather than raising. -/
theorem missing_query_defaults_empty (search : Backend) (sid : Option String)
    (ev : OpenAIEvent) (args : List (String × String)) (cid : String)
    (ht : ev.type = some "response.function_call_arguments.done")
    (hn : ev.name = some "get_additional_context")
    (ha : ev.arguments = some args)
    (hq : args.lookup "query" = none)
    (hc : ev.call_id = some cid) :
    send_to_twilio_step search sid ev =
      .ok ([], [AISend.itemCreateFnOutput cid (azure_search_rag search ""),
        AISend.responseCreate]) := by
  have h := toolcall_step_eq search sid ev args cid ht hn ha hc
  rwa [show get_query args = "" from by simp [get_query, hq]] at h

/-- C7 witness: an argument object with no query key at all. -/
theorem missing_query_defaults_empty_witness :
    send_to_twilio_step (fun _ => .ok []) none
      ⟨some "response.function_call_arguments.done", none, some "get_additional_context",
        some [], some "c1", none⟩ =
      .ok ([], [AISend.itemCreateFnOutput "c1" (azure_search_rag (fun _ => .ok []) ""),
        AISend.responseCreate]) :=
  missing_query_defaults_empty (fun _ => .ok []) none _ [] "c1" rfl rfl rfl rfl rfl

/-- C8: a response.function_call_arguments.done event whose name is not
get_additional_context provokes no message on either transport and no
exception; the outbound loop holds no mutable session state, so nothing
else changes. -/
theorem other_function_name_no_sends (search : Backend) (sid : Option String)
    (ev : OpenAIEvent) (n : String)
    (ht : ev.type = some "response.function_call_arguments.done")
    (hn : ev.name = some n) (hne : n ≠ "get_additional_context") :
    send_to_twilio_step search sid ev = .ok ([], []) :=
  other_name_step_eq search sid ev n ht hn hne

/-- C8 witness: an unrelated tool name. -/
theorem other_function_name_no_sends_witness :
    send_to_twilio_step (fun _ => .ok []) none
      ⟨some "response.function_call_arguments.done", none, some "other_tool", none, none,
        none⟩ = .ok ([], []) :=
  other_function_name_no_sends (fun _ => .ok []) none _ "other_tool" rfl rfl (by decide)

/-- C9: an input_audio_buffer.committed message provokes no send on either
transport, no exception and no state change - the retrieval-trigger branch
reads the text field and is otherwise inert (its action is commented out in
the source). -/
theorem committed_message_inert (search : Backend) (sid : Option String) (ev : OpenAIEvent)
    (ht : ev.type = some "input_audio_buffer.committed") :
    send_to_twilio_step search sid ev = .ok ([], []) :=
  committed_step_eq search sid ev ht

/-- C9 witness: a committed message carrying a text field. -/
theorem committed_message_inert_witness :
    send_to_twilio_step (fun _ => .ok []) none
      ⟨some "input_audio_buffer.committed", none, none, none, none, some "hi"⟩ =
      .ok ([], []) :=
  committed_message_inert (fun _ => .ok []) none _ rfl

/-- C10: an inbound frame that is not valid JSON, or a media event missing
the media payload, or a start event missing the stream identifier, raises
an exception the loop does not catch (only a websocket disconnect is
caught), ending the inbound loop with nothing sent, rather than skipping
the malformed frame. -/
theorem malformed_inbound_raises (op : Bool) (sid : Option String)
    (rest : List (Option TwilioInMsg)) :
    ((receive_from_twilio op sid (none :: rest)).exn = true ∧
      (receive_from_twilio op sid (none :: rest)).sends = []) ∧
    (∀ m : TwilioInMsg, m.event = some "media" → m.mediaPayload = none →
      (receive_from_twilio op sid (some m :: rest)).exn = true ∧
      (receive_from_twilio op sid (some m :: rest)).sends = []) ∧
    (∀ m : TwilioInMsg, m.event = some "start" → m.startStreamSid = none →
      (receive_from_twilio op sid (some m :: rest)).exn = true ∧
      (receive_from_twilio op sid (some m :: rest)).sends = []) := by
  refine ⟨⟨rfl, rfl⟩, fun m hm hp => ?_, fun m hm hs => ?_⟩
  · have hstep : receive_step sid m = .error () := by simp [receive_step, hm, hp]
    simp [receive_from_twilio, hstep]
  · have hstep : receive_step sid m = .error () := by simp [receive_step, hm, hs]
    simp [receive_from_twilio, hstep]

/-- C10 witness: a media event with no payload ends the loop with an
exception and nothing sent. -/
theorem malformed_inbound_raises_witness :
    (receive_from_twilio true none [some ⟨some "media", none, none⟩]).exn = true ∧
    (receive_from_twilio true none [some ⟨some "media", none, none⟩]).sends = [] :=
  (malformed_inbound_raises true none []).2.1 ⟨some "media", none, none⟩ rfl rfl
